import Mathlib

/-!
Verification of the movie-dashboard data pipeline (`src/app.py`).

The pipeline loads two tabular datasets (a domestic KOBIS box-office
series and a global TMDB catalog), filters out rows failing the year
horizon or numeric-range checks, explodes comma-separated genre lists
into per-genre contribution rows, aggregates by genre and by language,
ranks with pandas `nlargest`, buckets the cumulative-audience column
into five fixed ranges, and derives percentage insights.

Shallow-embedding conventions:
* a pandas cell that may be NaN is an `Option` value (`none` = NaN);
* pandas comparisons against NaN are false, which the `Option`
  comparators below reproduce;
* `openDt` is represented by the month (1..12) of the parsed date,
  `none` for NaT, because the program only ever consumes
  `openDt.dt.month`;
* monetary/count columns are `Int`, rating/popularity columns are `ℚ`.
-/

namespace MovieApp

/-- A domestic (KOBIS) row after CSV ingestion.  `none` models NaN/NaT. -/
structure KRow where
  movieNm : String := ""
  year : Option Int := some 2023
  openDt : Option Nat := none
  audiCnt : Option Int := none
  salesAmt : Option Int := none
  audiAcc : Option Int := none
  scrnCnt : Option Int := none
  genres : Option String := none
deriving Repr, DecidableEq

/-- A global (TMDB) row after CSV ingestion.  `none` models NaN. -/
structure TRow where
  title : Option String := some ""
  year : Option Int := some 2023
  vote_average : Option ℚ := none
  vote_count : Option Int := none
  popularity : Option ℚ := none
  original_language : Option String := none
deriving Repr, DecidableEq

/-- Pandas semantics of `x <= b` on a possibly-NaN integer cell: NaN
compares false. -/
def leOpt (x : Option Int) (b : Int) : Bool :=
  match x with
  | some v => v ≤ b
  | none => false

/-- Pandas semantics of `x >= b` on a possibly-NaN integer cell. -/
def geOpt (x : Option Int) (b : Int) : Bool :=
  match x with
  | some v => b ≤ v
  | none => false

/-- Pandas semantics of `x < b` on a possibly-NaN integer cell. -/
def ltOpt (x : Option Int) (b : Int) : Bool :=
  match x with
  | some v => v < b
  | none => false

/-- Pandas semantics of `x >= b` on a possibly-NaN rational cell. -/
def geOptQ (x : Option ℚ) (b : ℚ) : Bool :=
  match x with
  | some v => b ≤ v
  | none => false

/-- Pandas semantics of `x <= b` on a possibly-NaN rational cell. -/
def leOptQ (x : Option ℚ) (b : ℚ) : Bool :=
  match x with
  | some v => v ≤ b
  | none => false

/-- The analysis horizon `current_year = 2024` of `load_and_process_data`. -/
def currentYear : Int := 2024

/-- `load_and_process_data`, domestic side: keep rows with
`year <= current_year`, then `audiCnt >= 0`, then `salesAmt >= 0`
(lines 76, 84, 85 of `app.py`).  A NaN cell fails each comparison, so
such rows are dropped whole.  No other column is validated. -/
def loadKobis (raw : List KRow) : List KRow :=
  ((raw.filter (fun r => leOpt r.year currentYear)).filter
      (fun r => geOpt r.audiCnt 0)).filter
    (fun r => geOpt r.salesAmt 0)

/-- `load_and_process_data`, global side: keep rows with
`year <= current_year` and `0 <= vote_average <= 10`
(lines 77 and 86 of `app.py`). -/
def loadTmdb (raw : List TRow) : List TRow :=
  (raw.filter (fun r => leOpt r.year currentYear)).filter
    (fun r => geOptQ r.vote_average 0 && leOptQ r.vote_average 10)

/-- The `recent_years = [2022, 2023, 2024]` pre-filter of `main`. -/
def recentYears : List Int := [2022, 2023, 2024]

/-- `kobis_recent = kobis_df[kobis_df.year.isin(recent_years)]`. -/
def kobisRecent (df : List KRow) : List KRow :=
  df.filter (fun r =>
    match r.year with
    | some y => recentYears.contains y
    | none => false)

/-! ### Categorical explosion (`show_korean_analysis`, lines 270-281) -/

/-- One entry of the `genre_data` auxiliary collection: the genre label
together with the owning row's metric values, NaN coerced to 0 by the
`if pd.notna(...) else 0` expressions at lines 279-280. -/
structure GRow where
  genre : String
  audiCnt : Int
  salesAmt : Int
deriving Repr, DecidableEq

/-- Python `str.split(",")` on the character list: adjacent separators
and boundary separators produce empty parts, and the empty string yields
one empty part. -/
def splitOnComma : List Char → List (List Char)
  | [] => [[]]
  | c :: cs =>
      if c = ',' then [] :: splitOnComma cs
      else
        match splitOnComma cs with
        | [] => [[c]]
        | p :: ps => (c :: p) :: ps

/-- Python `str.strip()` on the character list: drop leading and
trailing whitespace. -/
def trimChars (cs : List Char) : List Char :=
  ((cs.dropWhile Char.isWhitespace).reverse.dropWhile Char.isWhitespace).reverse

/-- `str(genres).split(",")`, each part stripped, empty parts dropped
(lines 273-276). -/
def cleanGenres (s : String) : List String :=
  (((splitOnComma s.data).map trimChars).filter (fun cs => !cs.isEmpty)).map
    (fun cs => String.mk cs)

/-- The per-record fan-out: a row with a non-null `genres` cell emits
one `GRow` per surviving part of the split, carrying the row's full
`audiCnt` and `salesAmt` (NaN coerced to 0); a null `genres` cell emits
nothing (lines 271-281). -/
def explodeRow (r : KRow) : List GRow :=
  match r.genres with
  | some s =>
      (cleanGenres s).map (fun g =>
        { genre := g, audiCnt := r.audiCnt.getD 0, salesAmt := r.salesAmt.getD 0 })
  | none => []

/-- The full `genre_data` list built by the row loop at lines 270-281. -/
def genreData (rows : List KRow) : List GRow :=
  rows.flatMap explodeRow

/-- The rows of `genre_data` falling in the group of genre `g`
(the `groupby("genre")` at line 285). -/
def genreGroup (l : List GRow) (g : String) : List GRow :=
  l.filter (fun x => x.genre == g)

/-- `genre_summary["총관객수"]`: the group's `audiCnt` sum. -/
def audiSumFor (l : List GRow) (g : String) : Int :=
  ((genreGroup l g).map GRow.audiCnt).sum

/-- `genre_summary["영화수"]`: the group's `audiCnt` count.  After the
NaN-to-0 coercion of lines 279-280 no cell is null, so pandas `count`
is the group size. -/
def audiCountFor (l : List GRow) (g : String) : Nat :=
  (genreGroup l g).length

/-- `genre_summary["평균관객수"]` before the display rounding: the pandas
mean of the group's (already coerced) `audiCnt` column; `none` for an
absent group, as `groupby` only yields non-empty groups. -/
def audiMeanFor (l : List GRow) (g : String) : Option ℚ :=
  let grp := genreGroup l g
  if grp.length = 0 then none
  else some (((grp.map GRow.audiCnt).sum : ℚ) / (grp.length : ℚ))

/-- `genre_summary["총매출"]`: the group's `salesAmt` sum. -/
def salesSumFor (l : List GRow) (g : String) : Int :=
  ((genreGroup l g).map GRow.salesAmt).sum

/-- Number of occurrences of label `g` among a row's surviving genre
parts (0 for a null `genres` cell). -/
def occ (g : String) (r : KRow) : Nat :=
  match r.genres with
  | some s => (cleanGenres s).count g
  | none => 0

/-! ### Language aggregation (`show_global_analysis`, lines 336-341) -/

/-- The rows of the group of language `g` under
`groupby("original_language")`; pandas drops NaN keys, which the
comparison with `some g` reproduces. -/
def langGroup (rows : List TRow) (g : String) : List TRow :=
  rows.filter (fun r => r.original_language == some g)

/-- `lang_analysis["영화수"]`: pandas `count` of the group's `title`
column, i.e. the number of non-null titles. -/
def langCountFor (rows : List TRow) (g : String) : Nat :=
  ((langGroup rows g).filter (fun r => r.title.isSome)).length

/-- `lang_analysis["평균인기도"]`: pandas `mean` of the group's
`popularity` column — NaN cells are skipped, the denominator is the
number of non-null cells, and an all-NaN column yields NaN (`none`). -/
def langPopMeanFor (rows : List TRow) (g : String) : Option ℚ :=
  let vals := (langGroup rows g).filterMap TRow.popularity
  if vals.length = 0 then none else some (vals.sum / (vals.length : ℚ))

/-- `lang_analysis["평균평점"]`: pandas `mean` of the group's
`vote_average` column, same NaN-skipping semantics. -/
def langVoteMeanFor (rows : List TRow) (g : String) : Option ℚ :=
  let vals := (langGroup rows g).filterMap TRow.vote_average
  if vals.length = 0 then none else some (vals.sum / (vals.length : ℚ))

/-! ### Ranking (`nlargest`, lines 240, 312, 323) -/

/-- The tie-broken descending order pandas `nlargest(keep="first")`
realises on (original position, metric value) pairs: larger value
first, equal values in original position order. -/
def rankRel (a b : Nat × ℚ) : Prop :=
  b.2 < a.2 ∨ (a.2 = b.2 ∧ a.1 ≤ b.1)

instance : DecidableRel rankRel := fun a b => by
  unfold rankRel; infer_instance

instance : IsTotal (Nat × ℚ) rankRel :=
  ⟨fun a b => by
    rcases lt_trichotomy a.2 b.2 with h | h | h
    · exact Or.inr (Or.inl h)
    · rcases Nat.le_total a.1 b.1 with h1 | h1
      · exact Or.inl (Or.inr ⟨h, h1⟩)
      · exact Or.inr (Or.inr ⟨h.symm, h1⟩)
    · exact Or.inl (Or.inl h)⟩

instance : IsTrans (Nat × ℚ) rankRel :=
  ⟨fun a b c hab hbc => by
    rcases hab with h1 | ⟨e1, i1⟩ <;> rcases hbc with h2 | ⟨e2, i2⟩
    · exact Or.inl (h2.trans h1)
    · exact Or.inl (e2 ▸ h1)
    · exact Or.inl (e1 ▸ h2)
    · exact Or.inr ⟨e1.trans e2, i1.trans i2⟩⟩

/-- The (original position, metric value) pairs of the rows whose
metric cell is non-null, positions counted from `i`.  This is the
eligible set of pandas `nlargest`, which drops NaN rows. -/
def eligibleFrom {α : Type} (f : α → Option ℚ) : Nat → List α → List (Nat × ℚ)
  | _, [] => []
  | i, r :: rs =>
      match f r with
      | some v => (i, v) :: eligibleFrom f (i + 1) rs
      | none => eligibleFrom f (i + 1) rs

/-- `df.nlargest(n, field)` (keep="first"): drop the NaN rows, sort the
rest descending by the metric with a stable sort (so ties stay in
original position order), and take the first `n`.  Returns the
(original position, metric value) pairs of the selected rows. -/
def nlargest {α : Type} (rows : List α) (f : α → Option ℚ) (n : Nat) : List (Nat × ℚ) :=
  (List.insertionSort rankRel (eligibleFrom f 0 rows)).take n

/-- `kobis_df.nlargest(10, "audiAcc")` at line 240. -/
def topMovies (rows : List KRow) : List (Nat × ℚ) :=
  nlargest rows (fun r => r.audiAcc.map (fun v => (v : ℚ))) 10

/-- `tmdb_df.nlargest(10, "vote_average")` at line 312. -/
def topRated (rows : List TRow) : List (Nat × ℚ) :=
  nlargest rows TRow.vote_average 10

/-- `tmdb_df.nlargest(10, "popularity")` at line 323. -/
def topPopular (rows : List TRow) : List (Nat × ℚ) :=
  nlargest rows TRow.popularity 10

/-! ### Audience-distribution bucketing (lines 251-258) -/

/-- Bucket 1, `audiAcc < 100000`. -/
def inB1 (r : KRow) : Bool := ltOpt r.audiAcc 100000

/-- Bucket 2, `100000 <= audiAcc < 1000000`. -/
def inB2 (r : KRow) : Bool := geOpt r.audiAcc 100000 && ltOpt r.audiAcc 1000000

/-- Bucket 3, `1000000 <= audiAcc < 5000000`. -/
def inB3 (r : KRow) : Bool := geOpt r.audiAcc 1000000 && ltOpt r.audiAcc 5000000

/-- Bucket 4, `5000000 <= audiAcc < 10000000`. -/
def inB4 (r : KRow) : Bool := geOpt r.audiAcc 5000000 && ltOpt r.audiAcc 10000000

/-- Bucket 5, `audiAcc >= 10000000`. -/
def inB5 (r : KRow) : Bool := geOpt r.audiAcc 10000000

/-- The `audience_counts` list of the five bucket sizes. -/
def bucketCounts (rows : List KRow) : List Nat :=
  [rows.countP (fun r => inB1 r), rows.countP (fun r => inB2 r),
   rows.countP (fun r => inB3 r), rows.countP (fun r => inB4 r),
   rows.countP (fun r => inB5 r)]

/-! ### Insights (`show_insights`, lines 356-391) -/

/-- The `count / total * 100 if total > 0 else 0` guard used for every
rate in `show_insights`. -/
def ratioPct (num den : Nat) : ℚ :=
  if 0 < den then (num : ℚ) / (den : ℚ) * 100 else 0

/-- `total_movies = len(kobis_df)` (line 358). -/
def totalMovies (rows : List KRow) : Nat := rows.length

/-- `blockbuster_count = len(kobis_df[kobis_df.audiAcc >= 10000000])`
(line 359). -/
def blockbusterCount (rows : List KRow) : Nat :=
  rows.countP (fun r => geOpt r.audiAcc 10000000)

/-- `blockbuster_rate` (line 360): a percentage in [0, 100], not a
ratio in [0, 1]. -/
def blockbusterRate (rows : List KRow) : ℚ :=
  ratioPct (blockbusterCount rows) (totalMovies rows)

/-- `summer_movies = len(kobis_df[kobis_df.month.isin([6, 7, 8])])`
(line 371); a NaT open date never satisfies `isin`. -/
def summerCount (rows : List KRow) : Nat :=
  rows.countP (fun r =>
    match r.openDt with
    | some m => [6, 7, 8].contains m
    | none => false)

/-- `total_with_date = len(kobis_df.dropna(subset=["openDt"]))`
(line 372). -/
def totalWithDate (rows : List KRow) : Nat :=
  rows.countP (fun r => r.openDt.isSome)

/-- `summer_rate` (line 373): a percentage in [0, 100]. -/
def summerRate (rows : List KRow) : ℚ :=
  ratioPct (summerCount rows) (totalWithDate rows)

/-- `high_rated = len(tmdb_df[tmdb_df.vote_average >= 8.0])` (line 383). -/
def highRatedCount (rows : List TRow) : Nat :=
  rows.countP (fun r => geOptQ r.vote_average 8)

/-- `quality_rate` (line 385): a percentage in [0, 100]. -/
def qualityRate (rows : List TRow) : ℚ :=
  ratioPct (highRatedCount rows) rows.length

/-! ### Frame mutation (`show_key_metrics` line 209, `show_insights`
line 370) -/

/-- The domestic dataframe seen as an object: its rows plus the `month`
column that `show_key_metrics` and `show_insights` may attach in place
(`none` = the column does not exist yet). -/
structure KFrame where
  rows : List KRow
  month : Option (List (Option Nat)) := none
deriving Repr, DecidableEq

/-- `not kobis_df["openDt"].isna().all()`. -/
def hasAnyOpenDt (rows : List KRow) : Bool :=
  rows.any (fun r => r.openDt.isSome)

/-- `kobis_df["month"] = kobis_df["openDt"].dt.month`, executed when the
`openDt` column is not entirely NaT: a column assignment on the frame
the function received, i.e. an in-place mutation. -/
def addMonthColumn (df : KFrame) : KFrame :=
  if hasAnyOpenDt df.rows then { df with month := some (df.rows.map KRow.openDt) }
  else df

/-- The effect of `show_key_metrics` on the domestic frame it receives
(lines 208-210). -/
def showKeyMetricsFrame (df : KFrame) : KFrame := addMonthColumn df

/-- The effect of `show_insights` on the domestic frame it receives
(lines 369-371). -/
def showInsightsFrame (df : KFrame) : KFrame := addMonthColumn df

/-! ## Helper lemmas -/

theorem genreData_cons (r : KRow) (rows : List KRow) :
    genreData (r :: rows) = explodeRow r ++ genreData rows := rfl

theorem genreData_append (l1 l2 : List KRow) :
    genreData (l1 ++ l2) = genreData l1 ++ genreData l2 :=
  List.flatMap_append l1 l2 explodeRow

theorem genreData_singleton (r : KRow) : genreData [r] = explodeRow r := by
  simp [genreData]

theorem genreGroup_append (l1 l2 : List GRow) (g : String) :
    genreGroup (l1 ++ l2) g = genreGroup l1 g ++ genreGroup l2 g :=
  List.filter_append l1 l2

theorem audiCountFor_append (l1 l2 : List GRow) (g : String) :
    audiCountFor (l1 ++ l2) g = audiCountFor l1 g + audiCountFor l2 g := by
  simp [audiCountFor, genreGroup_append]

theorem audiSumFor_append (l1 l2 : List GRow) (g : String) :
    audiSumFor (l1 ++ l2) g = audiSumFor l1 g + audiSumFor l2 g := by
  simp [audiSumFor, genreGroup_append]

theorem audiCountFor_map_label (gs : List String) (a b : Int) (g : String) :
    audiCountFor (gs.map fun x => { genre := x, audiCnt := a, salesAmt := b }) g =
      gs.count g := by
  induction gs with
  | nil => rfl
  | cons x xs ih =>
      by_cases h : x = g <;>
        simp [audiCountFor, genreGroup, List.count_cons, h] at ih ⊢ <;> omega

theorem audiSumFor_map_label (gs : List String) (a b : Int) (g : String) :
    audiSumFor (gs.map fun x => { genre := x, audiCnt := a, salesAmt := b }) g =
      (gs.count g : Int) * a := by
  induction gs with
  | nil => simp [audiSumFor, genreGroup]
  | cons x xs ih =>
      by_cases h : x = g
      · simp [audiSumFor, genreGroup, List.count_cons, h] at ih ⊢
        rw [ih]
        ring
      · simp [audiSumFor, genreGroup, List.count_cons, h] at ih ⊢
        rw [ih]

theorem audiCountFor_explodeRow (r : KRow) (g : String) :
    audiCountFor (explodeRow r) g = occ g r := by
  cases h : r.genres with
  | none => simp [explodeRow, occ, h, audiCountFor, genreGroup]
  | some s => simp [explodeRow, occ, h, audiCountFor_map_label]

theorem audiSumFor_explodeRow (r : KRow) (g : String) :
    audiSumFor (explodeRow r) g = (occ g r : Int) * r.audiCnt.getD 0 := by
  cases h : r.genres with
  | none => simp [explodeRow, occ, h, audiSumFor, genreGroup]
  | some s => simp [explodeRow, occ, h, audiSumFor_map_label]

theorem audiCountFor_genreData (rows : List KRow) (g : String) :
    audiCountFor (genreData rows) g = (rows.map fun r => occ g r).sum := by
  induction rows with
  | nil => rfl
  | cons r rs ih =>
      simp [genreData_cons, audiCountFor_append, audiCountFor_explodeRow, ih]

theorem audiSumFor_genreData (rows : List KRow) (g : String) :
    audiSumFor (genreData rows) g =
      (rows.map fun r => (occ g r : Int) * r.audiCnt.getD 0).sum := by
  induction rows with
  | nil => rfl
  | cons r rs ih =>
      simp [genreData_cons, audiSumFor_append, audiSumFor_explodeRow, ih]

/-! ## Claim theorems -/

/-- C1: exploding a record's comma-separated genre list emits one
exploded row per surviving genre occurrence, each carrying the record's
full metric values, so a record contributes its entire audience value to
each of its genres' aggregates; on the two-record scenario the genre
aggregation yields Action with sum 12000000 and count 1 and Drama with
sum 12500000 and count 2. -/
theorem explode_emits_full_metric_per_genre :
    (∀ (rows : List KRow) (g : String),
        audiCountFor (genreData rows) g = (rows.map fun r => occ g r).sum ∧
        audiSumFor (genreData rows) g =
          (rows.map fun r => (occ g r : Int) * r.audiCnt.getD 0).sum) ∧
    (audiSumFor
        (genreData [{ genres := some "Action,Drama", audiCnt := some 12000000 },
          { genres := some "Drama", audiCnt := some 500000 }]) "Action" = 12000000 ∧
      audiCountFor
        (genreData [{ genres := some "Action,Drama", audiCnt := some 12000000 },
          { genres := some "Drama", audiCnt := some 500000 }]) "Action" = 1 ∧
      audiSumFor
        (genreData [{ genres := some "Action,Drama", audiCnt := some 12000000 },
          { genres := some "Drama", audiCnt := some 500000 }]) "Drama" = 12500000 ∧
      audiCountFor
        (genreData [{ genres := some "Action,Drama", audiCnt := some 12000000 },
          { genres := some "Drama", audiCnt := some 500000 }]) "Drama" = 2) :=
  ⟨fun rows g => ⟨audiCountFor_genreData rows g, audiSumFor_genreData rows g⟩,
   by decide, by decide, by decide, by decide⟩

/-- C3 counterexample: the explosion loop does not deduplicate labels
within a record — the raw genre field "Drama,Drama" yields two exploded
rows for the label Drama, not one. -/
theorem genre_dup_label_not_deduplicated :
    genreData [{ genres := some "Drama,Drama", audiCnt := some 7 }] =
      [{ genre := "Drama", audiCnt := 7, salesAmt := 0 },
       { genre := "Drama", audiCnt := 7, salesAmt := 0 }] ∧
    audiCountFor (genreData [{ genres := some "Drama,Drama", audiCnt := some 7 }])
        "Drama" ≠ 1 := by
  exact ⟨by decide, by decide⟩

/-- C3 amended: the explosion performs no within-record deduplication:
each occurrence of a label among a record's split-and-trimmed genre
parts yields its own exploded row, so a record prepended to the dataset
adds exactly its occurrence count of a label to that label's group
size. -/
theorem explode_row_count_is_occurrence_count :
    ∀ (r : KRow) (rows : List KRow) (g : String),
      audiCountFor (genreData (r :: rows)) g =
        occ g r + audiCountFor (genreData rows) g := by
  intro r rows g
  simp [genreData_cons, audiCountFor_append, audiCountFor_explodeRow]

/-- C2 counterexample: in the genre aggregation a row whose `audiCnt`
cell is NaN is coerced to 0 before grouping, so its group counts it in
the denominator and reports a defined mean of 0 — with zero valid
contributions the code yields neither a valid-only denominator nor an
undefined-mean sentinel. -/
theorem genre_mean_counts_invalid_row :
    ({ genres := some "Drama", audiCnt := none } : KRow).audiCnt = none ∧
    audiCountFor (genreData [{ genres := some "Drama", audiCnt := none }]) "Drama" = 1 ∧
    audiMeanFor (genreData [{ genres := some "Drama", audiCnt := none }]) "Drama" =
      some 0 := by
  refine ⟨rfl, by decide, ?_⟩
  simp [audiMeanFor, genreGroup, genreData, explodeRow, cleanGenres, splitOnComma,
    trimChars]

/-- C2 amended: the language aggregation's means skip missing cells
(appending a missing-popularity row changes nothing, and an all-missing
group reports the NaN sentinel), but the genre aggregation coerces
missing `audiCnt` to 0 at explosion time: an appended invalid row adds
nothing to the group sum yet enlarges the count/denominator, and a group
with zero valid contributions reports the defined mean 0, not a
sentinel.  (In the program's own pipeline the load filter of lines 84-85
drops missing-`audiCnt` rows, so the genre path never actually receives
one.) -/
theorem mean_denominator_and_sentinel_behaviour :
    (∀ (rows : List TRow) (r : TRow) (g : String), r.popularity = none →
        langPopMeanFor (rows ++ [r]) g = langPopMeanFor rows g) ∧
    (∀ (rows : List TRow) (g : String),
        (∀ r ∈ langGroup rows g, r.popularity = none) →
        langPopMeanFor rows g = none) ∧
    (∀ (rows : List KRow) (r : KRow) (g : String), r.audiCnt = none →
        audiSumFor (genreData (rows ++ [r])) g = audiSumFor (genreData rows) g ∧
        audiCountFor (genreData (rows ++ [r])) g =
          audiCountFor (genreData rows) g + occ g r) ∧
    (∀ (rows : List KRow) (g : String), (∀ r ∈ rows, r.audiCnt = none) →
        audiCountFor (genreData rows) g ≠ 0 →
        audiMeanFor (genreData rows) g = some 0) := by
  refine ⟨?_, ?_, ?_, ?_⟩
  · intro rows r g h
    have hgrp : langGroup (rows ++ [r]) g = langGroup rows g ++ langGroup [r] g :=
      List.filter_append rows [r]
    have hnil : (langGroup [r] g).filterMap TRow.popularity = [] := by
      simp only [langGroup, List.filter]
      cases hc : r.original_language == some g <;> simp [h]
    simp [langPopMeanFor, hgrp, List.filterMap_append, hnil]
  · intro rows g h
    have : (langGroup rows g).filterMap TRow.popularity = [] :=
      List.filterMap_eq_nil_iff.mpr h
    simp [langPopMeanFor, this]
  · intro rows r g h
    constructor
    · simp [genreData_append, audiSumFor_append, genreData_singleton,
        audiSumFor_explodeRow, h]
    · simp [genreData_append, audiCountFor_append, genreData_singleton,
        audiCountFor_explodeRow, h]
  · intro rows g hall hne
    have hsum : audiSumFor (genreData rows) g = 0 := by
      rw [audiSumFor_genreData]
      refine List.sum_eq_zero ?_
      intro x hx
      rcases List.mem_map.mp hx with ⟨r, hr, rfl⟩
      rw [hall r hr]
      simp
    have hlen : (genreGroup (genreData rows) g).length ≠ 0 := hne
    have hcast : (((genreGroup (genreData rows) g).map GRow.audiCnt).sum : ℚ) = 0 := by
      have : ((genreGroup (genreData rows) g).map GRow.audiCnt).sum = 0 := hsum
      rw [this]
      simp
    simp only [audiMeanFor, if_neg hlen, hcast]
    simp

/-- C2 amended, witness at concrete inputs. -/
theorem mean_denominator_and_sentinel_behaviour_witness :
    langPopMeanFor ([] ++ [({ popularity := none } : TRow)]) "en" =
        langPopMeanFor [] "en" ∧
    langPopMeanFor [({ original_language := some "en", popularity := none } : TRow)]
        "en" = none ∧
    audiCountFor
        (genreData ([] ++ [({ genres := some "Drama", audiCnt := none } : KRow)]))
        "Drama" =
      audiCountFor (genreData []) "Drama" +
        occ "Drama" ({ genres := some "Drama", audiCnt := none } : KRow) ∧
    audiMeanFor (genreData [({ genres := some "Drama", audiCnt := none } : KRow)])
        "Drama" = some 0 :=
  ⟨mean_denominator_and_sentinel_behaviour.1 [] _ "en" rfl,
   mean_denominator_and_sentinel_behaviour.2.1 _ "en" (by decide),
   (mean_denominator_and_sentinel_behaviour.2.2.1 [] _ "Drama" rfl).2,
   mean_denominator_and_sentinel_behaviour.2.2.2 _ "Drama" (by decide) (by decide)⟩

/-! ## Ranking lemmas -/

theorem length_eligibleFrom {α : Type} (f : α → Option ℚ) :
    ∀ (i : Nat) (rows : List α),
      (eligibleFrom f i rows).length = rows.countP fun r => (f r).isSome := by
  intro i rows
  induction rows generalizing i with
  | nil => rfl
  | cons r rs ih =>
      cases h : f r <;> simp [eligibleFrom, h, List.countP_cons, ih]

theorem le_fst_of_mem_eligibleFrom {α : Type} (f : α → Option ℚ) :
    ∀ (i : Nat) (rows : List α) (p : Nat × ℚ), p ∈ eligibleFrom f i rows → i ≤ p.1 := by
  intro i rows
  induction rows generalizing i with
  | nil => intro p hp; simp [eligibleFrom] at hp
  | cons r rs ih =>
      intro p hp
      cases h : f r <;> rw [eligibleFrom, h] at hp
      · exact Nat.le_of_succ_le (ih (i + 1) p hp)
      · rcases List.mem_cons.mp hp with rfl | hmem
        · exact Nat.le_refl i
        · exact Nat.le_of_succ_le (ih (i + 1) p hmem)

theorem pairwise_fst_eligibleFrom {α : Type} (f : α → Option ℚ) :
    ∀ (i : Nat) (rows : List α),
      (eligibleFrom f i rows).Pairwise fun a b => a.1 < b.1 := by
  intro i rows
  induction rows generalizing i with
  | nil => exact List.Pairwise.nil
  | cons r rs ih =>
      cases h : f r <;> rw [eligibleFrom, h]
      · exact ih (i + 1)
      · refine List.Pairwise.cons ?_ (ih (i + 1))
        intro q hq
        exact Nat.lt_of_succ_le (le_fst_of_mem_eligibleFrom f (i + 1) rs q hq)

theorem eligibleFrom_append {α : Type} (f : α → Option ℚ) :
    ∀ (i : Nat) (l1 l2 : List α),
      eligibleFrom f i (l1 ++ l2) =
        eligibleFrom f i l1 ++ eligibleFrom f (i + l1.length) l2 := by
  intro i l1
  induction l1 generalizing i with
  | nil => intro l2; simp [eligibleFrom]
  | cons r rs ih =>
      intro l2
      cases h : f r <;>
        simp [eligibleFrom, h, ih (i + 1) l2, Nat.add_comm, Nat.add_assoc,
          Nat.add_left_comm]

/-- C4: `nlargest` returns exactly `min n (eligible count)` entries,
descending in the metric with ties in strict original-position order,
and repeated runs on the same input are identical. -/
theorem topn_length_sorted_stable {α : Type} (rows : List α) (f : α → Option ℚ)
    (n : Nat) :
    (nlargest rows f n).length = min n (rows.countP fun r => (f r).isSome) ∧
    (nlargest rows f n).Pairwise
      (fun a b : Nat × ℚ => b.2 < a.2 ∨ (a.2 = b.2 ∧ a.1 < b.1)) ∧
    nlargest rows f n = nlargest rows f n := by
  refine ⟨?_, ?_, rfl⟩
  · rw [nlargest, List.length_take, List.length_insertionSort,
      length_eligibleFrom f 0 rows]
  · have hs : (List.insertionSort rankRel (eligibleFrom f 0 rows)).Pairwise rankRel :=
      List.sorted_insertionSort rankRel (eligibleFrom f 0 rows)
    have hperm :
        List.Perm (List.insertionSort rankRel (eligibleFrom f 0 rows))
          (eligibleFrom f 0 rows) :=
      List.perm_insertionSort rankRel (eligibleFrom f 0 rows)
    have hnodup : ((eligibleFrom f 0 rows).map Prod.fst).Nodup :=
      List.pairwise_map.mpr
        ((pairwise_fst_eligibleFrom f 0 rows).imp fun hab => Nat.ne_of_lt hab)
    have hnodup2 :
        ((List.insertionSort rankRel (eligibleFrom f 0 rows)).map Prod.fst).Nodup :=
      ((hperm.map Prod.fst).nodup_iff).mpr hnodup
    have hne :
        (List.insertionSort rankRel (eligibleFrom f 0 rows)).Pairwise
          fun a b : Nat × ℚ => a.1 ≠ b.1 :=
      List.pairwise_map.mp hnodup2
    have hcomb := List.pairwise_and_iff.mpr ⟨hs, hne⟩
    have hstrict :
        (List.insertionSort rankRel (eligibleFrom f 0 rows)).Pairwise
          (fun a b : Nat × ℚ => b.2 < a.2 ∨ (a.2 = b.2 ∧ a.1 < b.1)) := by
      refine hcomb.imp ?_
      rintro a b ⟨hr | ⟨heq, hle⟩, hne1⟩
      · exact Or.inl hr
      · exact Or.inr ⟨heq, Nat.lt_of_le_of_ne hle hne1⟩
    exact hstrict.sublist (List.take_sublist n _)

/-! ## Bucketing lemmas -/

theorem bucket_row_total (r : KRow) :
    (if inB1 r then 1 else 0) + (if inB2 r then 1 else 0) + (if inB3 r then 1 else 0)
        + (if inB4 r then 1 else 0) + (if inB5 r then 1 else 0)
        + (if r.audiAcc.isNone then 1 else 0) = 1 := by
  cases ha : r.audiAcc with
  | none => simp [inB1, inB2, inB3, inB4, inB5, ltOpt, geOpt, ha]
  | some v =>
      simp only [inB1, inB2, inB3, inB4, inB5, ltOpt, geOpt, ha, Option.isNone_some,
        Bool.false_eq_true, if_false, Bool.and_eq_true, decide_eq_true_eq]
      split_ifs <;> omega

/-- C5 counterexample: bucket membership is not `low ≤ x < high` over
the documented non-negative boundaries, and out-of-range values are not
excluded: the invalid negative audience value -4 — reachable because
`audiAcc` is never range-checked — is counted in the first bucket,
whose code predicate is unbounded below, so the bucket counts already
cover the whole one-row dataset and no exclusion is recorded for it. -/
theorem negative_audiAcc_is_bucketed :
    inB1 ({ audiAcc := some (-4) } : KRow) = true ∧
    (bucketCounts [({ audiAcc := some (-4) } : KRow)]).sum = 1 ∧
    (-4 : Int) < 0 := by
  exact ⟨by decide, by decide, by decide⟩

/-- C5 amended: every row with a present `audiAcc` — valid or not —
satisfies exactly one of the five bucket predicates (the first bucket is
unbounded below, so negative values land there; interior buckets are
`low ≤ x < high`; the last is unbounded above).  A row with a missing
`audiAcc` matches no bucket and is dropped silently: the code
materialises no exclusion count, and the number of dropped rows is
recoverable only as the gap in the accounting identity
bucket-count sum + missing-row count = total row count. -/
theorem bucket_membership_and_accounting (rows : List KRow) :
    (∀ r : KRow, r.audiAcc.isSome →
        ((if inB1 r then 1 else 0) + (if inB2 r then 1 else 0)
            + (if inB3 r then 1 else 0) + (if inB4 r then 1 else 0)
            + (if inB5 r then 1 else 0) : Nat) = 1) ∧
    (∀ r : KRow, r.audiAcc = none →
        inB1 r = false ∧ inB2 r = false ∧ inB3 r = false ∧ inB4 r = false ∧
          inB5 r = false) ∧
    (bucketCounts rows).sum + rows.countP (fun r => r.audiAcc.isNone) =
      rows.length := by
  refine ⟨?_, ?_, ?_⟩
  · intro r hr
    have h := bucket_row_total r
    have hnone : r.audiAcc.isNone = false := by
      cases hx : r.audiAcc
      · rw [hx] at hr; simp at hr
      · simp [hx]
    rw [hnone] at h
    simpa using h
  · intro r h
    exact ⟨by simp [inB1, ltOpt, h], by simp [inB2, geOpt, h],
      by simp [inB3, geOpt, h], by simp [inB4, geOpt, h], by simp [inB5, geOpt, h]⟩
  · induction rows with
    | nil => rfl
    | cons r rs ih =>
        have h := bucket_row_total r
        simp only [bucketCounts, List.countP_cons, List.sum_cons,
          List.sum_nil, List.length_cons] at ih ⊢
        omega

/-- C5 amended, witness at concrete inputs. -/
theorem bucket_membership_and_accounting_witness :
    ((if inB1 ({ audiAcc := some (-4) } : KRow) then 1 else 0)
        + (if inB2 ({ audiAcc := some (-4) } : KRow) then 1 else 0)
        + (if inB3 ({ audiAcc := some (-4) } : KRow) then 1 else 0)
        + (if inB4 ({ audiAcc := some (-4) } : KRow) then 1 else 0)
        + (if inB5 ({ audiAcc := some (-4) } : KRow) then 1 else 0) : Nat) = 1 ∧
    (inB1 ({ audiAcc := none } : KRow) = false ∧
      inB2 ({ audiAcc := none } : KRow) = false ∧
      inB3 ({ audiAcc := none } : KRow) = false ∧
      inB4 ({ audiAcc := none } : KRow) = false ∧
      inB5 ({ audiAcc := none } : KRow) = false) ∧
    (bucketCounts [({ audiAcc := some 500000 } : KRow),
          ({ audiAcc := some (-4) } : KRow), ({ audiAcc := none } : KRow)]).sum +
        ([({ audiAcc := some 500000 } : KRow), ({ audiAcc := some (-4) } : KRow),
          ({ audiAcc := none } : KRow)] : List KRow).countP
          (fun r => r.audiAcc.isNone) =
      ([({ audiAcc := some 500000 } : KRow), ({ audiAcc := some (-4) } : KRow),
          ({ audiAcc := none } : KRow)] : List KRow).length :=
  ⟨(bucket_membership_and_accounting []).1 ({ audiAcc := some (-4) } : KRow)
      (by decide),
   (bucket_membership_and_accounting []).2.1 ({ audiAcc := none } : KRow) rfl,
   (bucket_membership_and_accounting
      [({ audiAcc := some 500000 } : KRow), ({ audiAcc := some (-4) } : KRow),
       ({ audiAcc := none } : KRow)]).2.2⟩

/-- C6 counterexample: a row whose `audiCnt` is the out-of-range value
-1 is removed from the dataset whole by the load filter, even though its
other metrics are present and valid — it is not retained with only the
offending metric marked absent. -/
theorem negative_metric_removes_row :
    loadKobis [{ year := some 2023, audiCnt := some (-1), salesAmt := some 5,
                 audiAcc := some 100 }] = [] ∧
    ({ year := some 2023, audiCnt := some (-1), salesAmt := some 5,
       audiAcc := some 100 } : KRow).salesAmt = some 5 := by
  exact ⟨by decide, rfl⟩

/-- C6 amended: the load step drops a record entirely whenever its
`year` is missing or beyond the horizon, its `audiCnt` is missing or
negative, or its `salesAmt` is missing or negative (domestic), or its
`vote_average` is missing or outside [0, 10] (global); surviving records
are exactly the raw records passing all three checks, and no other
numeric field is range-checked. -/
theorem load_membership_characterisation (raw : List KRow) (traw : List TRow)
    (r : KRow) (t : TRow) :
    (r ∈ loadKobis raw ↔
      r ∈ raw ∧ leOpt r.year currentYear = true ∧ geOpt r.audiCnt 0 = true ∧
        geOpt r.salesAmt 0 = true) ∧
    (t ∈ loadTmdb traw ↔
      t ∈ traw ∧ leOpt t.year currentYear = true ∧
        (geOptQ t.vote_average 0 && leOptQ t.vote_average 10) = true) := by
  constructor
  · simp only [loadKobis, List.mem_filter]
    tauto
  · simp only [loadTmdb, List.mem_filter, Bool.and_eq_true]
    tauto

/-- C7: every rate in `show_insights` guards its division with
`if total > 0 else 0`, so a zero denominator yields the sentinel 0
rather than a division fault; in particular the ratio of 0 to 0 is 0,
and each rate over an empty dataset is 0. -/
theorem ratio_zero_denominator_sentinel (n : Nat) :
    ratioPct n 0 = 0 ∧ ratioPct 0 0 = 0 ∧ blockbusterRate [] = 0 ∧
      summerRate [] = 0 ∧ qualityRate [] = 0 := by
  refine ⟨?_, ?_, ?_, ?_, ?_⟩ <;>
    simp [ratioPct, blockbusterRate, summerRate, qualityRate, blockbusterCount,
      totalMovies, summerCount, totalWithDate, highRatedCount]

/-! ## Rate-bound lemmas -/

theorem ratioPct_bounds (num den : Nat) (h : num ≤ den) :
    0 ≤ ratioPct num den ∧ ratioPct num den ≤ 100 := by
  unfold ratioPct
  split
  · rename_i hd
    have hden : (0 : ℚ) < (den : ℚ) := by exact_mod_cast hd
    constructor
    · positivity
    · have hle : (num : ℚ) / (den : ℚ) ≤ 1 := by
        rw [div_le_one hden]
        exact_mod_cast h
      calc (num : ℚ) / (den : ℚ) * 100 ≤ 1 * 100 := by
            exact mul_le_mul_of_nonneg_right hle (by norm_num)
        _ = 100 := one_mul 100
  · norm_num

theorem summerCount_le_totalWithDate (rows : List KRow) :
    summerCount rows ≤ totalWithDate rows := by
  refine List.countP_mono_left ?_
  intro r _ h
  cases hx : r.openDt
  · rw [hx] at h; simp at h
  · simp [hx]

/-- C8 counterexample: the insight calculator multiplies its ratios by
100 — a dataset whose single row is a ten-million blockbuster gets a
blockbuster rate of 100, which is not in [0, 1]. -/
theorem blockbuster_rate_is_percentage :
    blockbusterRate [{ audiAcc := some 10000000 }] = 100 ∧
    ¬ blockbusterRate [{ audiAcc := some 10000000 }] ≤ 1 := by
  have h : blockbusterRate [({ audiAcc := some 10000000 } : KRow)] = 100 := by
    simp [blockbusterRate, ratioPct, blockbusterCount, totalMovies, geOpt,
      List.countP_cons, List.countP_nil]
  refine ⟨h, ?_⟩
  rw [h]
  norm_num

/-- C8 amended: every percentage-style insight (blockbuster rate,
summer-release rate, high-rating rate) is a percentage in [0, 100]: the
`* 100` scaling is applied inside the computation, not left to the
presentation layer. -/
theorem insight_rates_within_percent_range (krows : List KRow) (trows : List TRow) :
    (0 ≤ blockbusterRate krows ∧ blockbusterRate krows ≤ 100) ∧
    (0 ≤ summerRate krows ∧ summerRate krows ≤ 100) ∧
    (0 ≤ qualityRate trows ∧ qualityRate trows ≤ 100) := by
  refine ⟨?_, ?_, ?_⟩
  · exact ratioPct_bounds _ _ (List.countP_le_length _)
  · exact ratioPct_bounds _ _ (summerCount_le_totalWithDate krows)
  · exact ratioPct_bounds _ _ (List.countP_le_length _)

/-- C9 counterexample: `show_key_metrics` and `show_insights` assign a
derived `month` column onto the domestic dataframe they receive, so the
frame after the call differs from the frame before it — the input
dataset is mutated, not read-only. -/
theorem key_metrics_adds_month_column :
    showKeyMetricsFrame { rows := [{ openDt := some 7 }] } ≠
      ({ rows := [{ openDt := some 7 }] } : KFrame) ∧
    showInsightsFrame { rows := [{ openDt := some 7 }] } ≠
      ({ rows := [{ openDt := some 7 }] } : KFrame) := by
  exact ⟨by decide, by decide⟩

/-- C9 amended: the only mutation an analysis pass performs on its input
frame is attaching the derived `month` column; the row data — every
pre-existing field and column — is left unchanged. -/
theorem analysis_preserves_rows (df : KFrame) :
    (showKeyMetricsFrame df).rows = df.rows ∧ (showInsightsFrame df).rows = df.rows := by
  unfold showKeyMetricsFrame showInsightsFrame addMonthColumn
  constructor <;> (split <;> rfl)

/-- C10: after the load every surviving domestic row has a present,
non-negative `audiCnt` and `salesAmt` (a missing value fails the `>= 0`
comparison, dropping the row whole), while `audiAcc` is never validated:
a row with missing `audiAcc` is ignored by the `audiAcc` ranking, by
every distribution bucket and by the blockbuster numerator, yet still
counts in the total-row-count denominator. -/
theorem load_invariants_and_unvalidated_audiAcc (raw rows : List KRow) (r : KRow) :
    (∀ x ∈ loadKobis raw,
        (∃ v, x.audiCnt = some v ∧ 0 ≤ v) ∧ ∃ w, x.salesAmt = some w ∧ 0 ≤ w) ∧
    (r.audiCnt = none → r ∉ loadKobis raw) ∧
    (r.salesAmt = none → r ∉ loadKobis raw) ∧
    (r.audiAcc = none →
        topMovies (rows ++ [r]) = topMovies rows ∧
        bucketCounts (rows ++ [r]) = bucketCounts rows ∧
        blockbusterCount (rows ++ [r]) = blockbusterCount rows ∧
        totalMovies (rows ++ [r]) = totalMovies rows + 1) := by
  refine ⟨?_, ?_, ?_, ?_⟩
  · intro x hx
    simp only [loadKobis, List.mem_filter] at hx
    obtain ⟨⟨⟨_, _⟩, hcnt⟩, hamt⟩ := hx
    constructor
    · cases hc : x.audiCnt with
      | none => rw [hc] at hcnt; simp [geOpt] at hcnt
      | some v =>
          rw [hc] at hcnt
          exact ⟨v, rfl, by simpa [geOpt] using hcnt⟩
    · cases hc : x.salesAmt with
      | none => rw [hc] at hamt; simp [geOpt] at hamt
      | some w =>
          rw [hc] at hamt
          exact ⟨w, rfl, by simpa [geOpt] using hamt⟩
  · intro h hmem
    simp only [loadKobis, List.mem_filter] at hmem
    obtain ⟨⟨⟨_, _⟩, hcnt⟩, _⟩ := hmem
    rw [h] at hcnt
    simp [geOpt] at hcnt
  · intro h hmem
    simp only [loadKobis, List.mem_filter] at hmem
    obtain ⟨⟨⟨_, _⟩, _⟩, hamt⟩ := hmem
    rw [h] at hamt
    simp [geOpt] at hamt
  · intro h
    have hb1 : inB1 r = false := by simp [inB1, ltOpt, h]
    have hb2 : inB2 r = false := by simp [inB2, geOpt, h]
    have hb3 : inB3 r = false := by simp [inB3, geOpt, h]
    have hb4 : inB4 r = false := by simp [inB4, geOpt, h]
    have hb5 : inB5 r = false := by simp [inB5, geOpt, h]
    refine ⟨?_, ?_, ?_, ?_⟩
    · unfold topMovies nlargest
      rw [eligibleFrom_append]
      have : eligibleFrom (fun x : KRow => x.audiAcc.map fun v => (v : ℚ))
          (0 + rows.length) [r] = [] := by
        simp [eligibleFrom, h]
      rw [this, List.append_nil]
    · simp [bucketCounts, List.countP_append, List.countP_cons, List.countP_nil,
        hb1, hb2, hb3, hb4, hb5]
    · simp [blockbusterCount, List.countP_append, List.countP_cons, List.countP_nil,
        geOpt, h]
    · simp [totalMovies]

/-- C10, witness at concrete inputs. -/
theorem load_invariants_and_unvalidated_audiAcc_witness :
    ((∃ v, ({ year := some 2023, audiCnt := some 3, salesAmt := some 4 } : KRow).audiCnt
          = some v ∧ 0 ≤ v) ∧
      ∃ w, ({ year := some 2023, audiCnt := some 3, salesAmt := some 4 } : KRow).salesAmt
          = some w ∧ 0 ≤ w) ∧
    (({ audiCnt := none } : KRow) ∉ loadKobis [({ audiCnt := none } : KRow)]) ∧
    topMovies ([({ year := some 2023, audiCnt := some 3, salesAmt := some 4,
                   audiAcc := some 9 } : KRow)] ++ [({ audiAcc := none } : KRow)]) =
      topMovies [({ year := some 2023, audiCnt := some 3, salesAmt := some 4,
                    audiAcc := some 9 } : KRow)] ∧
    totalMovies ([({ year := some 2023, audiCnt := some 3, salesAmt := some 4,
                     audiAcc := some 9 } : KRow)] ++ [({ audiCnt := none } : KRow)]) =
      totalMovies [({ year := some 2023, audiCnt := some 3, salesAmt := some 4,
                      audiAcc := some 9 } : KRow)] + 1 :=
  ⟨(load_invariants_and_unvalidated_audiAcc
        [{ year := some 2023, audiCnt := some 3, salesAmt := some 4 }] []
        ({ audiCnt := none } : KRow)).1 _ (by decide),
   (load_invariants_and_unvalidated_audiAcc [({ audiCnt := none } : KRow)] []
        ({ audiCnt := none } : KRow)).2.1 rfl,
   ((load_invariants_and_unvalidated_audiAcc []
        [({ year := some 2023, audiCnt := some 3, salesAmt := some 4,
            audiAcc := some 9 } : KRow)] ({ audiCnt := none } : KRow)).2.2.2 rfl).1,
   ((load_invariants_and_unvalidated_audiAcc []
        [({ year := some 2023, audiCnt := some 3, salesAmt := some 4,
            audiAcc := some 9 } : KRow)] ({ audiCnt := none } : KRow)).2.2.2 rfl).2.2.2⟩

end MovieApp
